import Mathlib

/-!
Verification of the `InputState` keystroke-buffering state machine of a
Vietnamese IME (source: `src/input.rs`).

Modelling conventions, matching the Rust source:
* `buffer` and `display_buffer` are Rust `String`s holding Unicode scalar
  values; we model them as `List Char` (Lean `Char` = Unicode scalar value,
  the same as Rust `char`).
* Rust `String::len()` is the UTF-8 *byte* length, not the character count;
  `byteLen` models it.  `String::chars().count()` is the character count,
  modelled by `List.length`.
* Rust byte-range slicing `&s[i..]` panics when `i` is not a character
  boundary; `sliceFromByte` returns `none` in exactly that case.
* Fallible operations (ones whose Rust counterpart can panic, e.g. by
  unsigned-integer underflow or out-of-boundary slicing) return `Option`;
  `none` models the panic.
-/

/-- UTF-8 encoded size in bytes of one Unicode scalar value, as used by
Rust's `String::len` byte accounting. -/
def charBytes (c : Char) : Nat :=
  if c.toNat < 0x80 then 1
  else if c.toNat < 0x800 then 2
  else if c.toNat < 0x10000 then 3
  else 4

/-- UTF-8 byte length of a character sequence: models Rust `String::len()`. -/
def byteLen : List Char → Nat
  | [] => 0
  | c :: cs => charBytes c + byteLen cs

/-- Models the Rust byte slice `&s[n..]` of a string: returns the suffix
starting at byte offset `n`, or `none` when `n` does not fall on a character
boundary or lies beyond the end (Rust panics in those cases). -/
def sliceFromByte : List Char → Nat → Option (List Char)
  | s, 0 => some s
  | [], _ + 1 => none
  | c :: rest, n + 1 =>
    if charBytes c ≤ n + 1 then sliceFromByte rest (n + 1 - charBytes c) else none

/-- `const MAX_POSSIBLE_WORD_LENGTH: usize = 10;` from `src/input.rs`. -/
def MAX_POSSIBLE_WORD_LENGTH : Nat := 10

/-- `const MAX_DUPLICATE_LENGTH: usize = 4;` from `src/input.rs`. -/
def MAX_DUPLICATE_LENGTH : Nat := 4

/-- `enum TypingMethod { VNI, Telex }` from `src/input.rs`. -/
inductive TypingMethod where
  | VNI
  | Telex
deriving DecidableEq

/-- `struct InputState` from `src/input.rs`. -/
structure InputState where
  buffer : List Char
  display_buffer : List Char
  method : TypingMethod
  enabled : Bool
  should_track : Bool
deriving DecidableEq

/-- `InputState::new`: empty buffers, method Telex, enabled, tracking. -/
def InputState.new : InputState :=
  { buffer := []
    display_buffer := []
    method := TypingMethod.Telex
    enabled := true
    should_track := true }

/-- `InputState::is_enabled`. -/
def InputState.is_enabled (s : InputState) : Bool :=
  s.enabled

/-- `InputState::is_tracking`. -/
def InputState.is_tracking (s : InputState) : Bool :=
  s.should_track

/-- `InputState::is_buffer_empty`. -/
def InputState.is_buffer_empty (s : InputState) : Bool :=
  s.buffer.isEmpty

/-- `InputState::clear`: empties both buffers. -/
def InputState.clear (s : InputState) : InputState :=
  { s with buffer := [], display_buffer := [] }

/-- `InputState::new_word`: clears when the buffer is non-empty, then sets
`should_track = true`. -/
def InputState.new_word (s : InputState) : InputState :=
  let s1 := if s.buffer.isEmpty then s else s.clear
  { s1 with should_track := true }

/-- `InputState::stop_tracking`: `clear()` then `should_track = false`. -/
def InputState.stop_tracking (s : InputState) : InputState :=
  { s.clear with should_track := false }

/-- `InputState::toggle_vietnamese`: flips `enabled`, then `new_word()`. -/
def InputState.toggle_vietnamese (s : InputState) : InputState :=
  InputState.new_word { s with enabled := !s.enabled }

/-- `InputState::set_method`: sets the method, then `new_word()`. -/
def InputState.set_method (s : InputState) (m : TypingMethod) : InputState :=
  InputState.new_word { s with method := m }

/-- `InputState::get_method`. -/
def InputState.get_method (s : InputState) : TypingMethod :=
  s.method

/-- The Telex trigger array
`['a', 'e', 'o', 'd', 's', 't', 'j', 'f', 'x', 'r', 'w', 'z']` from
`InputState::should_transform_keys`. -/
def telexTriggers : List Char :=
  ['a', 'e', 'o', 'd', 's', 't', 'j', 'f', 'x', 'r', 'w', 'z']

/-- Closed code-point ranges of the Unicode general categories Nd, Nl and No
(Unicode 14.0): the set accepted by Rust char::is_numeric. -/
def numericRanges : List (Nat × Nat) :=
  [(48, 57), (178, 179), (185, 185), (188, 190), (1632, 1641), (1776, 1785), (1984, 1993),
  (2406, 2415), (2534, 2543), (2548, 2553), (2662, 2671), (2790, 2799), (2918, 2927), (2930,
  2935), (3046, 3058), (3174, 3183), (3192, 3198), (3302, 3311), (3416, 3422), (3430, 3448),
  (3558, 3567), (3664, 3673), (3792, 3801), (3872, 3891), (4160, 4169), (4240, 4249), (4969,
  4988), (5870, 5872), (6112, 6121), (6128, 6137), (6160, 6169), (6470, 6479), (6608, 6618),
  (6784, 6793), (6800, 6809), (6992, 7001), (7088, 7097), (7232, 7241), (7248, 7257), (8304,
  8304), (8308, 8313), (8320, 8329), (8528, 8578), (8581, 8585), (9312, 9371), (9450, 9471),
  (10102, 10131), (11517, 11517), (12295, 12295), (12321, 12329), (12344, 12346), (12690,
  12693), (12832, 12841), (12872, 12879), (12881, 12895), (12928, 12937), (12977, 12991),
  (42528, 42537), (42726, 42735), (43056, 43061), (43216, 43225), (43264, 43273), (43472,
  43481), (43504, 43513), (43600, 43609), (44016, 44025), (65296, 65305), (65799, 65843),
  (65856, 65912), (65930, 65931), (66273, 66299), (66336, 66339), (66369, 66369), (66378,
  66378), (66513, 66517), (66720, 66729), (67672, 67679), (67705, 67711), (67751, 67759),
  (67835, 67839), (67862, 67867), (68028, 68029), (68032, 68047), (68050, 68095), (68160,
  68168), (68221, 68222), (68253, 68255), (68331, 68335), (68440, 68447), (68472, 68479),
  (68521, 68527), (68858, 68863), (68912, 68921), (69216, 69246), (69405, 69414), (69457,
  69460), (69573, 69579), (69714, 69743), (69872, 69881), (69942, 69951), (70096, 70105),
  (70113, 70132), (70384, 70393), (70736, 70745), (70864, 70873), (71248, 71257), (71360,
  71369), (71472, 71483), (71904, 71922), (72016, 72025), (72784, 72812), (73040, 73049),
  (73120, 73129), (73664, 73684), (74752, 74862), (92768, 92777), (92864, 92873), (93008,
  93017), (93019, 93025), (93824, 93846), (119520, 119539), (119648, 119672), (120782, 120831),
  (123200, 123209), (123632, 123641), (125127, 125135), (125264, 125273), (126065, 126123),
  (126125, 126127), (126129, 126132), (126209, 126253), (126255, 126269), (127232, 127244),
  (130032, 130041)]

/-- Closed code-point ranges of the Unicode general category Nd alone
(Unicode 14.0): the decimal-digit characters. -/
def ndRanges : List (Nat × Nat) :=
  [(48, 57), (1632, 1641), (1776, 1785), (1984, 1993), (2406, 2415), (2534, 2543), (2662, 2671),
  (2790, 2799), (2918, 2927), (3046, 3055), (3174, 3183), (3302, 3311), (3430, 3439), (3558,
  3567), (3664, 3673), (3792, 3801), (3872, 3881), (4160, 4169), (4240, 4249), (6112, 6121),
  (6160, 6169), (6470, 6479), (6608, 6617), (6784, 6793), (6800, 6809), (6992, 7001), (7088,
  7097), (7232, 7241), (7248, 7257), (42528, 42537), (43216, 43225), (43264, 43273), (43472,
  43481), (43504, 43513), (43600, 43609), (44016, 44025), (65296, 65305), (66720, 66729),
  (68912, 68921), (69734, 69743), (69872, 69881), (69942, 69951), (70096, 70105), (70384,
  70393), (70736, 70745), (70864, 70873), (71248, 71257), (71360, 71369), (71472, 71481),
  (71904, 71913), (72016, 72025), (72784, 72793), (73040, 73049), (73120, 73129), (92768,
  92777), (92864, 92873), (93008, 93017), (120782, 120831), (123200, 123209), (123632, 123641),
  (125264, 125273), (130032, 130041)]

/-- Nat-level core of Rust `char::is_numeric`: membership in the Unicode
general categories Nd, Nl and No, given by `numericRanges`. -/
def isNumericN (n : Nat) : Bool :=
  numericRanges.any (fun p => decide (p.1 ≤ n ∧ n ≤ p.2))

/-- Rust `char::is_numeric`: true when the character's general category is
Nd, Nl or No. -/
def isNumericRust (c : Char) : Bool :=
  isNumericN c.toNat

/-- Membership in the Unicode general category Nd: a decimal digit in the
Unicode sense. -/
def isNdRust (c : Char) : Bool :=
  ndRanges.any (fun p => decide (p.1 ≤ c.toNat ∧ c.toNat ≤ p.2))

/-- Modelled from the spec: a decimal digit, the characters 0 through 9
(used only to compare the spec's wording against the source's
`char::is_numeric`). -/
def isDecimalDigit (c : Char) : Bool :=
  decide (48 ≤ c.toNat ∧ c.toNat ≤ 57)

/-- `InputState::should_transform_keys` (argument passed by reference in
Rust; value here). -/
def InputState.should_transform_keys (s : InputState) (c : Char) : Bool :=
  s.enabled &&
    match s.method with
    | TypingMethod.VNI => isNumericRust c
    | TypingMethod.Telex => telexTriggers.contains c

/-- `InputState::should_send_keyboard_event`: `!self.buffer.eq(word)`,
string content comparison. -/
def InputState.should_send_keyboard_event (s : InputState) (word : List Char) : Bool :=
  !(s.buffer == word)

/-- `InputState::get_backspace_count`.  `dp_len` is
`display_buffer.chars().count()`, a character count.  The Rust `else`
branch computes `dp_len - 1` in `usize`; when `dp_len = 0` that subtraction
underflows (a panic in debug builds), modelled here as `none`. -/
def InputState.get_backspace_count (s : InputState) (is_delete : Bool) : Option Nat :=
  let dp_len := s.display_buffer.length
  if is_delete = true ∧ 1 ≤ dp_len then some dp_len
  else if dp_len = 0 then none
  else some (dp_len - 1)

/-- `InputState::replace`: overwrites the display buffer. -/
def InputState.replace (s : InputState) (buf : List Char) : InputState :=
  { s with display_buffer := buf }

/-- `InputState::should_stop_tracking`.  `len` is the *byte* length of the
buffer and `&self.buffer[len - MAX_DUPLICATE_LENGTH..]` is a byte slice, so
the result is `none` (a Rust panic) when `len - 4` is not a character
boundary; otherwise `some` of whether every character of the trailing slice
equals its first character.  (The inner `none` for an empty slice models the
`.unwrap()`; it is unreachable when the slice succeeds with `len ≥ 4`.) -/
def InputState.should_stop_tracking (s : InputState) : Option Bool :=
  let len := byteLen s.buffer
  if MAX_DUPLICATE_LENGTH ≤ len then
    match sliceFromByte s.buffer (len - MAX_DUPLICATE_LENGTH) with
    | none => none
    | some buf =>
      match buf.head? with
      | none => none
      | some first => some (buf.all (fun x => x == first))
  else
    some false

/-- Appending step shared by `push`: `buffer.push(c); display_buffer.push(c)`. -/
def InputState.pushRaw (s : InputState) (c : Char) : InputState :=
  { s with buffer := s.buffer ++ [c], display_buffer := s.display_buffer ++ [c] }

/-- `InputState::push`: guarded by `buffer.len() <= MAX_POSSIBLE_WORD_LENGTH`
(byte length, checked before appending); after appending, a forced stop
clears the state via `stop_tracking`.  `none` propagates a panic from
`should_stop_tracking`. -/
def InputState.push (s : InputState) (c : Char) : Option InputState :=
  if byteLen s.buffer ≤ MAX_POSSIBLE_WORD_LENGTH then
    match (s.pushRaw c).should_stop_tracking with
    | none => none
    | some true => some (s.pushRaw c).stop_tracking
    | some false => some (s.pushRaw c)
  else
    some s

/-- `InputState::pop`: `buffer.pop()` removes the last character of `buffer`
only; if the buffer became empty, `new_word()`. -/
def InputState.pop (s : InputState) : InputState :=
  let s1 := { s with buffer := s.buffer.dropLast }
  if s1.buffer.isEmpty then s1.new_word else s1

/-- Iterated `push` from a state, propagating a panic as `none`. -/
def pushMany (s : InputState) : List Char → Option InputState
  | [] => some s
  | c :: cs =>
    match s.push c with
    | none => none
    | some s1 => pushMany s1 cs

/-! Helper lemmas about byte accounting and slicing. -/

theorem one_le_charBytes (c : Char) : 1 ≤ charBytes c := by
  unfold charBytes
  split
  · exact Nat.le_refl 1
  split
  · omega
  split
  · omega
  · omega

theorem charBytes_ascii (c : Char) (h : c.toNat < 128) : charBytes c = 1 := by
  unfold charBytes
  rw [if_pos h]

theorem length_le_byteLen (l : List Char) : l.length ≤ byteLen l := by
  induction l with
  | nil => simp [byteLen]
  | cons c cs ih =>
    have := one_le_charBytes c
    simp only [List.length_cons, byteLen]
    omega

theorem byteLen_ascii (l : List Char) (h : ∀ x ∈ l, x.toNat < 128) :
    byteLen l = l.length := by
  induction l with
  | nil => rfl
  | cons c cs ih =>
    have hc : charBytes c = 1 := charBytes_ascii c (h c (List.mem_cons_self c cs))
    simp only [byteLen, hc, List.length_cons]
    rw [ih (fun x hx => h x (List.mem_cons_of_mem c hx))]
    omega

theorem sliceFromByte_ascii (l : List Char) (n : Nat) (h : ∀ x ∈ l, x.toNat < 128)
    (hn : n ≤ l.length) : sliceFromByte l n = some (l.drop n) := by
  induction l generalizing n with
  | nil =>
    have : n = 0 := by simpa using hn
    subst this
    rfl
  | cons c cs ih =>
    match n with
    | 0 => rfl
    | m + 1 =>
      have hc : charBytes c = 1 := charBytes_ascii c (h c (List.mem_cons_self c cs))
      simp only [sliceFromByte, hc]
      rw [if_pos (by omega)]
      have : m + 1 - 1 = m := rfl
      rw [this]
      simp only [List.drop_succ_cons]
      exact ih m (fun x hx => h x (List.mem_cons_of_mem c hx))
        (by simpa using Nat.lt_succ_iff.mp (Nat.lt_of_lt_of_le (Nat.lt_succ_self m) (by simpa using hn)))

theorem pop_display_buffer (t : InputState) :
    t.pop.display_buffer = t.display_buffer := by
  unfold InputState.pop InputState.new_word InputState.clear
  dsimp only
  split
  · rfl
  · rfl

theorem should_stop_tracking_ascii_short (s : InputState)
    (hA : ∀ x ∈ s.buffer, x.toNat < 128) (hlt : s.buffer.length < 4) :
    s.should_stop_tracking = some false := by
  unfold InputState.should_stop_tracking
  dsimp only
  rw [byteLen_ascii s.buffer hA]
  rw [if_neg (by unfold MAX_DUPLICATE_LENGTH; omega)]

theorem should_stop_tracking_ascii_long (s : InputState)
    (hA : ∀ x ∈ s.buffer, x.toNat < 128) (hge : 4 ≤ s.buffer.length) :
    s.should_stop_tracking = some true ↔
      ∀ x ∈ s.buffer.drop (s.buffer.length - 4),
        ∀ y ∈ s.buffer.drop (s.buffer.length - 4), x = y := by
  unfold InputState.should_stop_tracking
  dsimp only
  rw [byteLen_ascii s.buffer hA]
  rw [if_pos (by unfold MAX_DUPLICATE_LENGTH; omega)]
  rw [sliceFromByte_ascii s.buffer (s.buffer.length - MAX_DUPLICATE_LENGTH) hA (by omega)]
  have hlen : (s.buffer.drop (s.buffer.length - MAX_DUPLICATE_LENGTH)).length = 4 := by
    rw [List.length_drop]
    unfold MAX_DUPLICATE_LENGTH
    omega
  have hMD : MAX_DUPLICATE_LENGTH = 4 := rfl
  rw [hMD] at hlen ⊢
  rcases ht : s.buffer.drop (s.buffer.length - 4) with _ | ⟨f, rest⟩
  · rw [ht] at hlen
    simp at hlen
  · rw [ht] at hlen
    simp only [List.head?_cons, Option.some.injEq]
    constructor
    · intro hall x hx y hy
      have hx' : x = f := by
        have := (List.all_eq_true.mp hall) x hx
        simpa using this
      have hy' : y = f := by
        have := (List.all_eq_true.mp hall) y hy
        simpa using this
      rw [hx', hy']
    · intro hpair
      apply List.all_eq_true.mpr
      intro x hx
      have : x = f := hpair x hx f (List.mem_cons_self f rest)
      simpa using this

set_option maxRecDepth 8192 in
theorem isNumericN_ascii : ∀ n, n < 128 → isNumericN n = decide (48 ≤ n ∧ n ≤ 57) := by
  decide

/-! Concrete states used as counterexamples and witnesses. -/

/-- State holding two identical non-ASCII characters (each 2 UTF-8 bytes). -/
def stateGraveGrave : InputState :=
  { buffer := ['à', 'à']
    display_buffer := ['à', 'à']
    method := TypingMethod.Telex
    enabled := true
    should_track := true }

/-- State holding three identical ASCII characters. -/
def stateTripleA : InputState :=
  { buffer := ['a', 'a', 'a']
    display_buffer := ['a', 'a', 'a']
    method := TypingMethod.Telex
    enabled := true
    should_track := true }

/-- Fresh state switched to the VNI method. -/
def stateVni : InputState :=
  { buffer := []
    display_buffer := []
    method := TypingMethod.VNI
    enabled := true
    should_track := true }

/-- Eleven alternating characters: no 4-duplicate run anywhere. -/
def elevenAB : List Char :=
  ['a', 'b', 'a', 'b', 'a', 'b', 'a', 'b', 'a', 'b', 'a']

/-- Character count of the buffer after a sequence of pushes, or `none`
after a panic. -/
def bufferLenAfter (o : Option InputState) : Option Nat :=
  o.map (fun t => t.buffer.length)

/-- Tracking flag after a sequence of pushes, or `none` after a panic. -/
def trackingAfter (o : Option InputState) : Option Bool :=
  o.map (fun t => t.is_tracking)

/-- Buffer content after a push followed by a pop, or `none` after a panic. -/
def pushPopBuffer (s : InputState) (c : Char) : Option (List Char) :=
  (s.push c).map (fun t => t.pop.buffer)

/-- State with an empty buffer but a non-empty display buffer and tracking off. -/
def stateEmptyBufDisp : InputState :=
  { buffer := []
    display_buffer := ['x']
    method := TypingMethod.Telex
    enabled := true
    should_track := false }

/-- State whose display buffer holds five characters. -/
def stateFiveDisp : InputState :=
  { buffer := ['h', 'e', 'l', 'l', 'o']
    display_buffer := ['h', 'e', 'l', 'l', 'o']
    method := TypingMethod.Telex
    enabled := true
    should_track := true }

/-- State buffering the word fragment "vie". -/
def stateVie : InputState :=
  { buffer := ['v', 'i', 'e']
    display_buffer := ['v', 'i', 'e']
    method := TypingMethod.Telex
    enabled := true
    should_track := true }

/-- C5: the code is not panic-free.  `get_backspace_count(false)` on the
initial state (empty display buffer) hits the `usize` underflow `0 - 1`
(`none` in the model), and pushing the reachable sequence à, a, a, a makes
`should_stop_tracking` slice the buffer at byte offset 1, inside the
two-byte encoding of à — a Rust panic (`none` in the model). -/
theorem backspace_underflow_and_slice_panic :
    InputState.new.get_backspace_count false = none ∧
    pushMany InputState.new ['à', 'a', 'a', 'a'] = none := by
  decide

/-- C6: with a non-empty display buffer, `get_backspace_count true` returns
the display buffer's length in Unicode scalar values and
`get_backspace_count false` returns that length minus one. -/
theorem get_backspace_count_nonempty (s : InputState) (h : s.display_buffer ≠ []) :
    s.get_backspace_count true = some s.display_buffer.length ∧
    s.get_backspace_count false = some (s.display_buffer.length - 1) := by
  have h1 : 1 ≤ s.display_buffer.length := List.length_pos.mpr h
  unfold InputState.get_backspace_count
  dsimp only
  constructor
  · rw [if_pos ⟨rfl, h1⟩]
  · rw [if_neg (by simp), if_neg (by omega)]

/-- Witness for C6 on a display buffer of length five: the results are 5
and 4. -/
theorem get_backspace_count_nonempty_witness :
    stateFiveDisp.get_backspace_count true = some 5 ∧
    stateFiveDisp.get_backspace_count false = some 4 :=
  get_backspace_count_nonempty stateFiveDisp (by decide)

/-- C7: after `new_word()` the buffer is empty and tracking is true, for
every prior state; `set_method` and `toggle_vietnamese` end with the same
postcondition, abandoning any in-progress word. -/
theorem new_word_resets_tracking (s : InputState) (m : TypingMethod) :
    (s.new_word.is_buffer_empty = true ∧ s.new_word.is_tracking = true) ∧
    ((s.set_method m).is_buffer_empty = true ∧ (s.set_method m).is_tracking = true) ∧
    (s.toggle_vietnamese.is_buffer_empty = true ∧ s.toggle_vietnamese.is_tracking = true) := by
  unfold InputState.toggle_vietnamese InputState.set_method InputState.new_word
    InputState.is_buffer_empty InputState.is_tracking InputState.clear
  dsimp only
  by_cases h : s.buffer.isEmpty <;> simp [h]

/-- C8: after `stop_tracking()` both buffers are empty and tracking is
false, for every prior state. -/
theorem stop_tracking_clears_and_untracks (s : InputState) :
    s.stop_tracking.buffer = [] ∧ s.stop_tracking.display_buffer = [] ∧
    s.stop_tracking.is_buffer_empty = true ∧ s.stop_tracking.is_tracking = false :=
  ⟨rfl, rfl, rfl, rfl⟩

/-- C9: `should_send_keyboard_event word` is true exactly when `word`
differs from the raw buffer content (the operation is modelled as a pure
function of the state, matching the `&self` receiver: it cannot change the
state). -/
theorem should_send_keyboard_event_iff (s : InputState) (word : List Char) :
    s.should_send_keyboard_event word = true ↔ word ≠ s.buffer := by
  unfold InputState.should_send_keyboard_event
  constructor
  · intro h heq
    rw [heq] at h
    simp at h
  · intro h
    simp only [Bool.not_eq_eq_eq_not, Bool.not_true, beq_eq_false_iff_ne]
    exact fun heq => h heq.symm

/-- Witness for C9: a fresh empty buffer differs from the one-character
word "v". -/
theorem should_send_keyboard_event_iff_witness :
    InputState.new.should_send_keyboard_event ['v'] = true :=
  (should_send_keyboard_event_iff InputState.new ['v']).mpr (by decide)

/-- C10: popping with an already-empty buffer leaves every field unchanged
except `should_track`, which becomes true; in particular a non-empty
display buffer is not cleared. -/
theorem pop_on_empty_buffer (s : InputState) (h : s.buffer = []) :
    s.pop = { s with should_track := true } := by
  cases s with
  | mk b d m e t =>
    simp only at h
    subst h
    rfl

/-- Witness for C10: popping a state with an empty buffer, a non-empty
display buffer and tracking off only turns tracking back on. -/
theorem pop_on_empty_buffer_witness :
    stateEmptyBufDisp.pop = { stateEmptyBufDisp with should_track := true } :=
  pop_on_empty_buffer stateEmptyBufDisp rfl

/-- C1 (counterexample): a buffer of two identical non-ASCII characters
(each two UTF-8 bytes) has fewer than 4 characters, yet
`should_stop_tracking` returns true, because the source measures the buffer
and takes the trailing slice in bytes, not characters; consequently two
pushes of à from the fresh state already turn tracking off. -/
theorem should_stop_tracking_nonascii_counterexample :
    stateGraveGrave.buffer.length = 2 ∧
    stateGraveGrave.should_stop_tracking = some true ∧
    trackingAfter (pushMany InputState.new ['à', 'à']) = some false := by
  decide

/-- C1 (amended, ASCII buffers): when every buffered character is ASCII,
`should_stop_tracking` returns false for buffers of fewer than 4 characters
and otherwise is true exactly when the 4 trailing characters are all
identical; and pushing a 4th consecutive identical character (within the
length guard) turns tracking off immediately. -/
theorem should_stop_tracking_ascii_spec (s : InputState) (c : Char) (l : List Char)
    (hA : ∀ x ∈ s.buffer, x.toNat < 128) :
    (s.buffer.length < 4 → s.should_stop_tracking = some false) ∧
    (4 ≤ s.buffer.length →
      (s.should_stop_tracking = some true ↔
        ∀ x ∈ s.buffer.drop (s.buffer.length - 4),
          ∀ y ∈ s.buffer.drop (s.buffer.length - 4), x = y)) ∧
    (s.buffer = l ++ [c, c, c] → byteLen s.buffer ≤ MAX_POSSIBLE_WORD_LENGTH →
      s.push c = some (s.pushRaw c).stop_tracking ∧
      (s.pushRaw c).stop_tracking.is_tracking = false) := by
  refine ⟨fun hlt => should_stop_tracking_ascii_short s hA hlt,
          fun hge => should_stop_tracking_ascii_long s hA hge, ?_⟩
  intro hend hg
  have hc : c.toNat < 128 := hA c (by rw [hend]; simp)
  have hA' : ∀ x ∈ (s.pushRaw c).buffer, x.toNat < 128 := by
    unfold InputState.pushRaw
    dsimp only
    intro x hx
    rcases List.mem_append.mp hx with h1 | h1
    · exact hA x h1
    · simp only [List.mem_singleton] at h1
      rw [h1]
      exact hc
  have hbuf : (s.pushRaw c).buffer = l ++ [c, c, c, c] := by
    unfold InputState.pushRaw
    dsimp only
    rw [hend, List.append_assoc]
    rfl
  have hlen : (s.pushRaw c).buffer.length = l.length + 4 := by
    rw [hbuf]
    simp
  have hdrop : (s.pushRaw c).buffer.drop ((s.pushRaw c).buffer.length - 4) = [c, c, c, c] := by
    rw [hlen, hbuf]
    have h4 : l.length + 4 - 4 = l.length := by omega
    rw [h4]
    exact List.drop_left l [c, c, c, c]
  have hsst : (s.pushRaw c).should_stop_tracking = some true := by
    apply (should_stop_tracking_ascii_long (s.pushRaw c) hA' (by omega)).mpr
    rw [hdrop]
    intro x hx y hy
    simp only [List.mem_cons, List.not_mem_nil, or_false] at hx hy
    rcases hx with h | h | h | h <;> rcases hy with h' | h' | h' | h' <;> rw [h, h']
  constructor
  · unfold InputState.push
    rw [if_pos hg, hsst]
  · rfl

/-- Witness for C1 on the ASCII state "aaa": the stop heuristic reports
false at 3 characters, and pushing the 4th identical a stops tracking. -/
theorem should_stop_tracking_ascii_spec_witness :
    stateTripleA.should_stop_tracking = some false ∧
    stateTripleA.push 'a' = some (stateTripleA.pushRaw 'a').stop_tracking ∧
    (stateTripleA.pushRaw 'a').stop_tracking.is_tracking = false :=
  ⟨(should_stop_tracking_ascii_spec stateTripleA 'a' [] (by decide)).1 (by decide),
   ((should_stop_tracking_ascii_spec stateTripleA 'a' [] (by decide)).2.2 rfl (by decide)).1,
   ((should_stop_tracking_ascii_spec stateTripleA 'a' [] (by decide)).2.2 rfl (by decide)).2⟩

/-- C2 (counterexample): the guard `buffer.len() <= 10` is checked before
appending, so the 11th push into an initially empty buffer is still
accepted and the buffer reaches 11 characters, contradicting the claimed
bound of 10. -/
theorem push_eleven_exceeds_ten :
    bufferLenAfter (pushMany InputState.new elevenAB) = some 11 ∧
    ¬(11 ≤ MAX_POSSIBLE_WORD_LENGTH) := by
  decide

/-- C2 (amended): after any accepted push the buffer holds at most
`MAX_POSSIBLE_WORD_LENGTH + 1 = 11` characters (the bound is an invariant
preserved by `push` from any state satisfying it), and once the byte length
exceeds the guard a push returns the state unchanged — the character is
silently dropped, not an error. -/
theorem push_buffer_at_most_eleven (s : InputState) (c : Char) (s' : InputState) :
    (s.buffer.length ≤ MAX_POSSIBLE_WORD_LENGTH + 1 → s.push c = some s' →
      s'.buffer.length ≤ MAX_POSSIBLE_WORD_LENGTH + 1) ∧
    (MAX_POSSIBLE_WORD_LENGTH < byteLen s.buffer → s.push c = some s) := by
  constructor
  · intro h hp
    unfold InputState.push at hp
    by_cases hg : byteLen s.buffer ≤ MAX_POSSIBLE_WORD_LENGTH
    · rw [if_pos hg] at hp
      have hlen : s.buffer.length ≤ MAX_POSSIBLE_WORD_LENGTH :=
        le_trans (length_le_byteLen s.buffer) hg
      rcases hsst : (s.pushRaw c).should_stop_tracking with _ | b
      · rw [hsst] at hp
        simp at hp
      · rcases b with _ | _
        · rw [hsst] at hp
          simp only [Option.some.injEq] at hp
          rw [← hp]
          unfold InputState.pushRaw
          dsimp only
          simp only [List.length_append, List.length_singleton]
          omega
        · rw [hsst] at hp
          simp only [Option.some.injEq] at hp
          rw [← hp]
          unfold InputState.stop_tracking InputState.clear
          dsimp only
          simp
    · rw [if_neg hg] at hp
      simp only [Option.some.injEq] at hp
      rw [← hp]
      exact h
  · intro hg
    unfold InputState.push
    rw [if_neg (by omega)]

/-- Witness for C2: pushing b onto the three-character buffer "aaa" keeps
the character count within 11. -/
theorem push_buffer_at_most_eleven_witness :
    (stateTripleA.pushRaw 'b').buffer.length ≤ MAX_POSSIBLE_WORD_LENGTH + 1 :=
  (push_buffer_at_most_eleven stateTripleA 'b' (stateTripleA.pushRaw 'b')).1
    (by decide) (by decide)

/-- C4 (counterexample): on the non-empty buffer "aaa", pushing a triggers
the forced-stop heuristic, which clears both buffers, so the following pop
leaves an empty buffer instead of restoring "aaa". -/
theorem push_pop_forced_stop_loses_buffer :
    stateTripleA.buffer ≠ [] ∧
    pushPopBuffer stateTripleA 'a' = some [] ∧
    pushPopBuffer stateTripleA 'a' ≠ some stateTripleA.buffer := by
  decide

/-- C4 (amended): when the buffer is non-empty, the push passes the length
guard and the appended buffer does not trip the forced-stop heuristic,
`push` followed by `pop` restores the buffer to its prior content; and
`pop` never modifies the display buffer, for every state. -/
theorem push_pop_restores_buffer (s : InputState) (c : Char)
    (hne : s.buffer ≠ [])
    (hg : byteLen s.buffer ≤ MAX_POSSIBLE_WORD_LENGTH)
    (hstop : (s.pushRaw c).should_stop_tracking = some false) :
    s.push c = some (s.pushRaw c) ∧
    (s.pushRaw c).pop.buffer = s.buffer ∧
    ∀ t : InputState, t.pop.display_buffer = t.display_buffer := by
  refine ⟨?_, ?_, pop_display_buffer⟩
  · unfold InputState.push
    rw [if_pos hg, hstop]
  · unfold InputState.pop InputState.pushRaw
    dsimp only
    have hdrop : (s.buffer ++ [c]).dropLast = s.buffer := by simp
    rw [hdrop]
    rw [if_neg (by simp [hne])]

/-- Witness for C4: pushing t onto the buffer "vie" and popping restores
"vie". -/
theorem push_pop_restores_buffer_witness :
    stateVie.push 't' = some (stateVie.pushRaw 't') ∧
    (stateVie.pushRaw 't').pop.buffer = stateVie.buffer :=
  ⟨(push_pop_restores_buffer stateVie 't' (by decide) (by decide) (by decide)).1,
   (push_pop_restores_buffer stateVie 't' (by decide) (by decide) (by decide)).2.1⟩

/-- C3 (counterexample): with the VNI method enabled, the vulgar-fraction
character ½ (U+00BD, general category No) triggers a transform because Rust
`char::is_numeric` accepts every Unicode number character, yet ½ is not a
decimal digit (neither 0–9 nor in category Nd). -/
theorem vni_trigger_not_decimal_digit :
    stateVni.should_transform_keys '½' = true ∧
    isDecimalDigit '½' = false ∧
    isNdRust '½' = false := by
  decide

/-- C3 (amended): `should_transform_keys` is false whenever the engine is
disabled; when enabled it is, under VNI, exactly Rust `char::is_numeric`
(which on ASCII characters coincides with the decimal digits 0–9), and
under Telex exactly membership in the lowercase trigger set
a, e, o, d, s, t, j, f, x, r, w, z — uppercase letters are not triggers. -/
theorem should_transform_keys_spec (s : InputState) (c : Char) :
    (s.enabled = false → s.should_transform_keys c = false) ∧
    (s.enabled = true → s.method = TypingMethod.VNI →
      s.should_transform_keys c = isNumericRust c) ∧
    (s.enabled = true → s.method = TypingMethod.Telex →
      (s.should_transform_keys c = true ↔ c ∈ telexTriggers)) ∧
    (c.toNat < 128 → isNumericRust c = isDecimalDigit c) := by
  refine ⟨?_, ?_, ?_, ?_⟩
  · intro h
    unfold InputState.should_transform_keys
    rw [h]
    rfl
  · intro he hm
    unfold InputState.should_transform_keys
    rw [he, hm]
    simp
  · intro he hm
    unfold InputState.should_transform_keys
    rw [he, hm]
    simp [List.elem_iff]
  · intro h
    unfold isNumericRust isDecimalDigit
    exact isNumericN_ascii c.toNat h

/-- Witness for C3: with VNI enabled, the digit 7 is a trigger and agrees
with the decimal-digit reading; Telex is checked on its trigger s. -/
theorem should_transform_keys_spec_witness :
    stateVni.should_transform_keys '7' = isNumericRust '7' ∧
    isNumericRust '7' = isDecimalDigit '7' ∧
    InputState.new.should_transform_keys 's' = true :=
  ⟨(should_transform_keys_spec stateVni '7').2.1 rfl rfl,
   (should_transform_keys_spec stateVni '7').2.2.2 (by decide),
   (should_transform_keys_spec InputState.new 's').2.2.1 rfl rfl |>.mpr (by decide)⟩
